import Mathlib

/-!
# Verification of the rpi-bot message-protocol and command-templating layer

Shallow embedding of the Go sources of `rpi-bot`:

* `command.go` (`createCommand`, `execCommand`) — the command templating
  engine and the executor wrapper;
* `messaging/common.go` (`Message`, `MessageType`) — the shared message model;
* `messaging/signal.go` (`parseMessage`, `parseResponse`, `messageReceiver`)
  — the socket-protocol adapter;
* `message.go` (`MessagingPoller`) — the dispatcher loop;
* `httpd.go` (`authMiddleware`) — the HTTP auth gate.

Pure functions are embedded directly; I/O boundaries (the JSON decoder on the
socket, the external process executor, the downstream HTTP handler) are
passed in as explicit oracles so that the control flow around them is the
part being verified.
-/

set_option autoImplicit false

deriving instance DecidableEq for Except

namespace RpiBot

/-! ## Message model (`messaging/common.go`) -/

/-- `messaging.MessageType`: enum `Command | Response | Chat | Update`
(iota order, so the Go zero value is `Command`). -/
inductive MessageType where
  | Command
  | Response
  | Chat
  | Update
deriving DecidableEq, Repr

/-- `messaging.Message` with Go field names lower-cased
(`Type, Command, Args, Raw, Text, ChatID, Source`).  Defaults are the Go
zero values. -/
structure Message where
  type : MessageType := .Command
  command : String := ""
  args : List String := []
  raw : String := ""
  text : String := ""
  chatID : Int := 0
  source : String := ""
deriving DecidableEq, Repr

/-- `Command` from `command.go`: a configured command definition with a
template string (Go field `Command`) and declared parameter names
(Go field `Args`). -/
structure Command where
  command : String := ""
  args : List String := []
deriving DecidableEq, Repr

/-! ## Go string primitives used by the templating engine -/

/-- `strings.Count(s, "%s")` specialised to the two-character pattern `%s`:
counts non-overlapping occurrences scanning left to right. -/
def countPlaceholders : List Char → Nat
  | '%' :: 's' :: rest => countPlaceholders rest + 1
  | _ :: rest => countPlaceholders rest
  | [] => 0

/-- Renders Go's `%!(EXTRA string=a, string=b)` list of leftover string
operands. -/
def extraArgsList : List String → String
  | [] => ""
  | [a] => "string=" ++ a
  | a :: rest => "string=" ++ a ++ ", " ++ extraArgsList rest

/-- `fmt.Sprintf` restricted to the fragment reachable from `createCommand`,
whose operands are always strings and whose verbs carry no flags, width or
precision: `%s` and `%v` print the operand verbatim, `%%` prints a percent
sign, any other verb applied to a string operand prints Go's bad-verb
notation `%!<verb>(string=<operand>)`, a verb with no operand left prints
`%!<verb>(MISSING)`, a trailing lone `%` prints `%!(NOVERB)`, and leftover
operands are appended as `%!(EXTRA string=..., ...)`. -/
def goSprintf : List Char → List String → String
  | [], [] => ""
  | [], a :: rest => "%!(EXTRA " ++ extraArgsList (a :: rest) ++ ")"
  | ['%'], args => "%!(NOVERB)" ++ goSprintf [] args
  | '%' :: '%' :: rest, args => "%" ++ goSprintf rest args
  | '%' :: 's' :: rest, a :: args => a ++ goSprintf rest args
  | '%' :: 's' :: rest, [] => "%!s(MISSING)" ++ goSprintf rest []
  | '%' :: 'v' :: rest, a :: args => a ++ goSprintf rest args
  | '%' :: 'v' :: rest, [] => "%!v(MISSING)" ++ goSprintf rest []
  | '%' :: c :: rest, a :: args =>
      "%!" ++ c.toString ++ "(string=" ++ a ++ ")" ++ goSprintf rest args
  | '%' :: c :: rest, [] => "%!" ++ c.toString ++ "(MISSING)" ++ goSprintf rest []
  | c :: rest, args => c.toString ++ goSprintf rest args

/-! ## The templating engine (`createCommand`, command.go lines 35–63) -/

/-- `createCommand(c Command, m messaging.Message) (string, error)`:
checks supplied arity against declared arity, then declared arity against
the number of `%s` placeholders literally present in the template, returns
the template unchanged for zero arguments, and otherwise interpolates the
message's arguments with `fmt.Sprintf`. -/
def createCommand (c : Command) (m : Message) : Except String String :=
  if m.args.length ≠ c.args.length then
    .error ("mismatch between command definition args=" ++ toString c.args.length
      ++ " and number of args=" ++ toString m.args.length)
  else
    let placeholderCount := countPlaceholders c.command.data
    if placeholderCount ≠ c.args.length then
      .error ("mismatch between placeholders (%s)=" ++ toString placeholderCount
        ++ " and number of args=" ++ toString c.args.length)
    else if c.args.length = 0 then
      .ok c.command
    else
      .ok (goSprintf c.command.data m.args)

/-- The substitution the spec describes for `render`: the template with each
`%s` placeholder (scanning left to right, non-overlapping) replaced by the
corresponding argument, in the order the arguments were supplied; everything
else is copied verbatim.  Refinement target for the templating claim, written
from the spec's words, not from the source. -/
def specSubstitute : List Char → List String → String
  | '%' :: 's' :: rest, a :: args => a ++ specSubstitute rest args
  | '%' :: 's' :: rest, [] => "%s" ++ specSubstitute rest []
  | c :: rest, args => c.toString ++ specSubstitute rest args
  | [], _ => ""

/-- A template is clean when every `%` in it begins a `%s` placeholder:
no other verbs and no escaped percents. -/
def cleanTemplate : List Char → Bool
  | [] => true
  | '%' :: 's' :: rest => cleanTemplate rest
  | '%' :: _ => false
  | _ :: rest => cleanTemplate rest

/-! ## Go `strings.Split` on a single space -/

/-- `strings.Split(s, " ")` on the character list: splits around every space
character, keeping empty fields; the result is never empty
(`Split("", " ") = [""]`). -/
def splitSpaceChars : List Char → List (List Char)
  | [] => [[]]
  | ' ' :: rest => [] :: splitSpaceChars rest
  | c :: rest =>
    match splitSpaceChars rest with
    | t :: ts => (c :: t) :: ts
    | [] => [[c]]

/-- `strings.Split(s, " ")`. -/
def goSplitSpace (s : String) : List String :=
  (splitSpaceChars s.data).map String.mk

/-! ## The executor wrapper (`execCommand`, command.go lines 18–33) -/

/-- `(*executor).execCommand(command string) (string, error)`.  The external
process invocation `exec.Command(...).CombinedOutput()` is the oracle
`combinedOutput`, mapping program name and argument vector to the pair of
combined output and optional error, exactly the two values the Go call
returns. -/
def execCommand (combinedOutput : String → List String → String × Option String)
    (command : String) : Except String String :=
  let parsedCommand := goSplitSpace command
  if parsedCommand.length = 0 then
    .error "empty command"
  else
    let r := combinedOutput (parsedCommand.headD "") parsedCommand.tail
    match r.2 with
    | some err => .error err
    | none => .ok r.1

/-! ## The socket-protocol adapter (`messaging/signal.go`) -/

/-- The fields of `ReceiveParams.Envelope.SyncMessage.SentMessage` read by
`parseMessage`; Go field names lower-cased. -/
structure SentMessage where
  destination : String := ""
  destinationNumber : String := ""
  destinationUUID : String := ""
  expiresInSeconds : Int := 0
  message : String := ""
  timestamp : Int := 0
  viewOnce : Bool := false
deriving DecidableEq, Repr

/-- `SyncMessage`. -/
structure SyncMessage where
  sentMessage : SentMessage := {}
deriving DecidableEq, Repr

/-- `Envelope`; Go field names lower-cased. -/
structure Envelope where
  serverDeliveredTimestamp : Int := 0
  serverReceivedTimestamp : Int := 0
  source : String := ""
  sourceDevice : Int := 0
  sourceName : String := ""
  sourceNumber : String := ""
  sourceUUID : String := ""
  syncMessage : SyncMessage := {}
deriving DecidableEq, Repr

/-- `ReceiveParams`, the payload of a `method="receive"` notification. -/
structure ReceiveParams where
  account : String := ""
  envelope : Envelope := {}
  timestamp : Int := 0
deriving DecidableEq, Repr

/-- `SendResult`, the payload of a response to a `send` request.  Only its
decodability matters to `parseResponse`, so the entry list is kept abstract
as the pair of recipient data actually present in the Go struct. -/
structure SendResultEntry where
  recipientUUID : String := ""
  recipientNumber : String := ""
  entryType : String := ""
deriving DecidableEq, Repr

/-- `SendResult`. -/
structure SendResult where
  timestamp : Int := 0
  results : List SendResultEntry := []
deriving DecidableEq, Repr

/-- A `*json.RawMessage` params payload together with the outcome
`json.Unmarshal` produces on it: the raw wire text and either a decode error
message or the decoded `ReceiveParams`. -/
structure RawParams where
  raw : String
  decoded : Except String ReceiveParams
deriving DecidableEq, Repr

/-- A `*json.RawMessage` result payload with its `json.Unmarshal` outcome. -/
structure RawResult where
  raw : String
  decoded : Except String SendResult
deriving DecidableEq, Repr

/-- The RPC-level error object of `rpcMessage`. -/
structure RpcError where
  code : Int := 0
  message : String := ""
deriving DecidableEq, Repr

/-- `rpcMessage`, the flat decode target for every inbound frame; field
presence (`nil` pointers in Go) is modelled with `Option`. -/
structure RpcMessage where
  jsonrpc : String := ""
  method : String := ""
  params : Option RawParams := none
  result : Option RawResult := none
  rpcErr : Option RpcError := none
  id : Option Int := none
deriving DecidableEq, Repr

/-- `strings.HasPrefix(s, "/")`: the first character is the command sigil.
(Char-level is equivalent to Go's byte-level check since `/` is ASCII.) -/
def hasSlashPrefix (s : String) : Bool :=
  match s.data with
  | '/' :: _ => true
  | _ => false

/-- `strings.TrimPrefix(s, "/")`: drops the leading slash when present. -/
def trimLeadingSlash (s : String) : String :=
  match s.data with
  | '/' :: rest => String.mk rest
  | _ => s

/-- The space-split tokens of the sent text inside a decoded notification
payload. -/
def sentTokens (recv : ReceiveParams) : List String :=
  goSplitSpace recv.envelope.syncMessage.sentMessage.message

/-- `parseMessage(msg *rpcMessage, sources []string) (Message, error)`
(signal.go lines 122–149), taking the dereferenced `*msg.Params` directly
(its callers guard `msg.Params != nil`).  Unmarshal failure and an
unlisted sender number return errors; otherwise the sent text is split on
spaces, the first token classifies the message as Command (leading `/`,
stripped) or Chat, and the remaining tokens become the arguments. -/
def parseMessage (params : RawParams) (sources : List String) :
    Except String Message :=
  match params.decoded with
  | .error e =>
    .error ("messageReceiver: unmarshal notification error to interface map: " ++ e)
  | .ok recvParams =>
    if recvParams.envelope.sourceNumber ∉ sources then
      .error ("messageReceiver: Message ignored as sources is not valid: "
        ++ recvParams.envelope.sourceNumber)
    else
      let commands := goSplitSpace recvParams.envelope.syncMessage.sentMessage.message
      let command := commands.headD ""
      let messageType := if hasSlashPrefix command then MessageType.Command
        else MessageType.Chat
      let command := if hasSlashPrefix command then trimLeadingSlash command
        else command
      .ok { type := messageType, raw := params.raw, command := command,
            source := recvParams.envelope.sourceNumber, args := commands.tail }

/-- `parseResponse(msg *rpcMessage) (Message, error)` (signal.go lines
151–161), taking the dereferenced `*msg.Result`. -/
def parseResponse (result : RawResult) : Except String Message :=
  match result.decoded with
  | .error e =>
    .error ("messageReceiver: unmarshal response error to interface map: " ++ e)
  | .ok _ => .ok { type := .Response, raw := result.raw }

/-- The outcome of one `dec.Decode(&msg)` call in `messageReceiver`:
end-of-stream, connection closed, some other decode failure — which in Go
leaves behind whatever fields the decoder already populated in the
freshly-zeroed `msg`, here `residual` — or a successfully decoded frame. -/
inductive DecodeOutcome where
  | eof
  | closed
  | failure (residual : RpcMessage)
  | ok (msg : RpcMessage)
deriving DecidableEq, Repr

/-- What one loop iteration does next: return from `messageReceiver`
(running the deferred `close(s.ch)`) or go round the loop again. -/
inductive LoopAction where
  | exitLoop
  | continueLoop
deriving DecidableEq, Repr

/-- The classification block of `messageReceiver` (signal.go lines 183–218)
applied to one `rpcMessage` value: the list of messages sent on `s.ch` for
it (empty or a singleton).  RPC-level errors, parse failures and
unrecognized frames are logged and produce nothing. -/
def handleFrame (sources : List String) (msg : RpcMessage) : List Message :=
  if msg.rpcErr.isSome then
    []
  else
    match msg.params, msg.method == "receive" with
    | some p, true =>
      match parseMessage p sources with
      | .error _ => []
      | .ok m => [m]
    | _, _ =>
      match msg.result with
      | some r =>
        match parseResponse r with
        | .error _ => []
        | .ok m => [m]
      | none => []

/-- One iteration of the `messageReceiver` loop (signal.go lines 170–219) as
a function of the decode outcome.  EOF and `net.ErrClosed` return from the
loop; any other decode failure falls through — the `if err != nil` block has
no branch for it — so the residual partially-decoded `msg` is classified by
the normal path, and the loop continues; a decoded frame is classified the
same way. -/
def receiverStep (sources : List String) (d : DecodeOutcome) :
    LoopAction × List Message :=
  match d with
  | .eof => (.exitLoop, [])
  | .closed => (.exitLoop, [])
  | .failure residual => (.continueLoop, handleFrame sources residual)
  | .ok msg => (.continueLoop, handleFrame sources msg)

/-- Runs `messageReceiver` over a finite prefix of decode outcomes,
collecting the messages delivered on `s.ch` and whether the loop returned
(running `defer close(s.ch)`, i.e. closing the output stream). -/
def receiverRun (sources : List String) : List DecodeOutcome → List Message × Bool
  | [] => ([], false)
  | d :: ds =>
    match receiverStep sources d with
    | (.exitLoop, ms) => (ms, true)
    | (.continueLoop, ms) =>
      let rest := receiverRun sources ds
      (ms ++ rest.1, rest.2)

/-! ## The dispatcher loop (`MessagingPoller`, message.go lines 30–71) -/

/-- The body of `MessagingPoller`'s `for update := range updates` loop for
one update.  The command table is the Go map `commands` (lookup function),
the external executor is the oracle `run`.  Returns the `SendMessage`
attempt — reply text paired with the original update it is addressed by —
or `none` when the update is skipped, together with the list of command
strings passed to the executor. -/
def pollerStep (commands : String → Option Command)
    (run : String → Except String String) (update : Message) :
    Option (String × Message) × List String :=
  if update.type ≠ MessageType.Command then
    (none, [])
  else
    match commands update.command with
    | none => (some ("Command not supported", update), [])
    | some command =>
      match createCommand command update with
      | .error e => (some ("Command formatting failed: " ++ e, update), [])
      | .ok fmtCommand =>
        match run fmtCommand with
        | .error e =>
          (some ("Command " ++ fmtCommand ++ " failed: " ++ e, update), [fmtCommand])
        | .ok output => (some (output, update), [fmtCommand])

/-! ## The HTTP auth gate (`authMiddleware`, httpd.go lines 16–25) -/

/-- An HTTP response as status code plus body. -/
structure HttpResponse where
  status : Nat
  body : String
deriving DecidableEq, Repr

/-- `r.Header.Get("Authorization")`: an absent header reads as `""`. -/
def headerGet (h : Option String) : String := h.getD ""

/-- `authMiddleware(token string, next http.Handler)` applied to a request
whose `Authorization` header reads as `auth`: when the configured token is
non-empty and the header differs from `"Token " + token`, the request is
answered with 401 and the body `http.Error` writes (`"unauthorized"` plus a
newline) and never reaches `next`; otherwise the downstream handler's
response `next` is served. -/
def authMiddleware (token : String) (auth : String) (next : HttpResponse) :
    HttpResponse :=
  if token ≠ "" ∧ auth ≠ "Token " ++ token then
    { status := 401, body := "unauthorized\n" }
  else
    next

end RpiBot

namespace RpiBot

/-- Sanity check of the `fmt.Sprintf` model against Go's documented output
on representative inputs: plain substitution, a wrong verb on a string
operand, and an escaped percent with a leftover operand. -/
theorem goSprintf_go_vectors :
    goSprintf "echo %s".data ["hello"] = "echo hello" ∧
    goSprintf "grep %s %s".data ["a", "b"] = "grep a b" ∧
    goSprintf "%d %s".data ["x"] = "%!d(string=x) %!s(MISSING)" ∧
    goSprintf "%%s".data ["x"] = "%s%!(EXTRA string=x)" := by decide

/-- Sanity check of `createCommand` against the repository's own test
vectors from `command_test.go`. -/
theorem createCommand_test_vectors :
    createCommand { command := "ls -l", args := [] } { args := [] } = .ok "ls -l" ∧
    createCommand { command := "echo %s", args := ["text"] } { args := ["hello"] }
      = .ok "echo hello" ∧
    createCommand { command := "some_command %s %s", args := ["arg1", "arg2"] }
        { args := ["only_one"] }
      = .error "mismatch between command definition args=2 and number of args=1" ∧
    createCommand { command := "fixed_command_with_args", args := ["p1"] }
        { args := ["a1"] }
      = .error "mismatch between placeholders (%s)=0 and number of args=1" := by
  decide

/-! ## Helper lemmas -/

/-- Prepending one character commutes with `String.mk`. -/
theorem char_toString_mk (c : Char) (cs : List Char) :
    c.toString ++ String.mk cs = String.mk (c :: cs) := rfl

/-- Rebuilding a string from its character data is the identity. -/
theorem string_mk_data (s : String) : String.mk s.data = s := rfl

/-- `strings.Split` never returns an empty slice. -/
theorem splitSpaceChars_ne_nil (cs : List Char) : splitSpaceChars cs ≠ [] := by
  induction cs using splitSpaceChars.induct <;> simp_all [splitSpaceChars]

/-- `goSplitSpace` never returns an empty list. -/
theorem goSplitSpace_length_pos (s : String) : 0 < (goSplitSpace s).length := by
  have h := splitSpaceChars_ne_nil s.data
  simp [goSplitSpace]
  exact List.length_pos.mpr h

/-- On a clean template whose placeholder count matches the number of
arguments, `fmt.Sprintf` performs exactly the spec's positional
substitution. -/
theorem goSprintf_clean (f : List Char) (args : List String)
    (hclean : cleanTemplate f = true)
    (hcount : countPlaceholders f = args.length) :
    goSprintf f args = specSubstitute f args := by
  induction f using cleanTemplate.induct generalizing args <;>
    cases args <;>
    simp_all [goSprintf, specSubstitute, cleanTemplate, countPlaceholders,
      char_toString_mk]

/-- A template without `%s` placeholders is copied verbatim by the spec's
substitution when no arguments are supplied. -/
theorem specSubstitute_no_placeholder (f : List Char)
    (h : countPlaceholders f = 0) :
    specSubstitute f [] = String.mk f := by
  induction f using countPlaceholders.induct <;>
    simp_all [specSubstitute, countPlaceholders, char_toString_mk]

/-! ## Claim theorems -/

/-- C1 (counterexample): for the definition `{template := "%d %s",
param_names := ["p"]}` and a message with the single argument `"x"`, the
argument count equals the declared arity and the template holds exactly one
`%s` placeholder, yet `createCommand` does not return the template with the
`%s` replaced by the argument (`"%d x"`): `fmt.Sprintf` also consumes the
argument for the stray `%d` verb, producing `"%!d(string=x) %!s(MISSING)"`. -/
theorem createCommand_substitution_cex :
    let c : Command := { command := "%d %s", args := ["p"] }
    let m : Message := { args := ["x"] }
    m.args.length = c.args.length ∧
    countPlaceholders c.command.data = c.args.length ∧
    createCommand c m = .ok "%!d(string=x) %!s(MISSING)" ∧
    specSubstitute c.command.data m.args = "%d x" ∧
    createCommand c m ≠ .ok (specSubstitute c.command.data m.args) := by
  decide

/-- C1 (amended): for every command definition and message where the number
of message args equals the number of declared param names, the number of
`%s` placeholders in the template equals that same count, and every `%` in
the template begins a `%s` placeholder, `createCommand` succeeds and returns
the template with each `%s` replaced by the corresponding argument in the
order supplied. -/
theorem createCommand_clean_renders (c : Command) (m : Message)
    (hlen : m.args.length = c.args.length)
    (hcount : countPlaceholders c.command.data = c.args.length)
    (hclean : cleanTemplate c.command.data = true) :
    createCommand c m = .ok (specSubstitute c.command.data m.args) := by
  unfold createCommand
  rcases Nat.eq_zero_or_pos c.args.length with h0 | h0
  · have hm : m.args = [] := List.eq_nil_of_length_eq_zero (hlen.trans h0)
    have hc0 : countPlaceholders c.command.data = 0 := hcount.trans h0
    rw [hm]
    simp [hlen, hcount, h0, hm, specSubstitute_no_placeholder _ hc0,
      string_mk_data]
  · have hne : ¬ c.args.length = 0 := Nat.pos_iff_ne_zero.mp h0
    simp [hlen, hcount, hne, goSprintf_clean _ _ hclean (hcount.trans hlen.symm)]

/-- C1 (witness): the amended theorem applied to the repository's own test
case `{template := "grep %s %s", param_names := ["pattern", "file"]}` with
arguments `["search_term", "my_file.txt"]`. -/
theorem createCommand_clean_renders_witness :
    createCommand { command := "grep %s %s", args := ["pattern", "file"] }
        { args := ["search_term", "my_file.txt"] }
      = .ok "grep search_term my_file.txt" := by
  have h := createCommand_clean_renders
    { command := "grep %s %s", args := ["pattern", "file"] }
    { args := ["search_term", "my_file.txt"] }
    (by decide) (by decide) (by decide)
  rw [h]; rfl

/-- C2: whenever the number of message args differs from the number of
declared param names, `createCommand` fails with exactly the mismatch error
naming the declared arity and the supplied arity, before any placeholder
check and regardless of the template's placeholder count. -/
theorem createCommand_arity_mismatch (c : Command) (m : Message)
    (h : m.args.length ≠ c.args.length) :
    createCommand c m = .error ("mismatch between command definition args="
      ++ toString c.args.length ++ " and number of args="
      ++ toString m.args.length) := by
  simp [createCommand, h]

/-- C2 (witness): the repository test's case of two declared parameters and
one supplied argument, on a template whose placeholder count (2) would also
mismatch — the arity error fires first. -/
theorem createCommand_arity_mismatch_witness :
    createCommand { command := "some_command %s %s", args := ["arg1", "arg2"] }
        { args := ["only_one"] }
      = .error "mismatch between command definition args=2 and number of args=1" := by
  have h := createCommand_arity_mismatch
    { command := "some_command %s %s", args := ["arg1", "arg2"] }
    { args := ["only_one"] } (by decide)
  rw [h]; decide

/-- C3: when the supplied argument count matches the declared arity but the
number of `%s` placeholders literally present in the template differs from
it, `createCommand` fails with exactly the placeholder mismatch error naming
the placeholder count and the declared arity. -/
theorem createCommand_placeholder_mismatch (c : Command) (m : Message)
    (hlen : m.args.length = c.args.length)
    (hph : countPlaceholders c.command.data ≠ c.args.length) :
    createCommand c m = .error ("mismatch between placeholders (%s)="
      ++ toString (countPlaceholders c.command.data) ++ " and number of args="
      ++ toString c.args.length) := by
  simp [createCommand, hlen, hph]

/-- C3 (witness): the repository test's case of a template with no
placeholders but one declared parameter and one supplied argument. -/
theorem createCommand_placeholder_mismatch_witness :
    createCommand { command := "fixed_command_with_args", args := ["placeholder1"] }
        { args := ["actual_arg1"] }
      = .error "mismatch between placeholders (%s)=0 and number of args=1" := by
  have h := createCommand_placeholder_mismatch
    { command := "fixed_command_with_args", args := ["placeholder1"] }
    { args := ["actual_arg1"] } (by decide) (by decide)
  rw [h]; decide

/-- C9: for every command definition with zero declared param names and zero
`%s` placeholders in its template, and every message with zero args,
`createCommand` succeeds and returns the template unmodified — also when
the template contains literal `%` characters that are not `%s` placeholders,
such as `%d` or a lone `%`. -/
theorem createCommand_zero_args_identity (c : Command) (m : Message)
    (hc : c.args = []) (hm : m.args = [])
    (hp : countPlaceholders c.command.data = 0) :
    createCommand c m = .ok c.command := by
  simp [createCommand, hc, hm, hp]

/-- C9 (witness): a template containing a `%d` verb and a lone `%` is
returned verbatim when no parameters are declared and none are supplied. -/
theorem createCommand_zero_args_identity_witness :
    createCommand { command := "df -h %d 100%", args := [] } { args := [] }
      = .ok "df -h %d 100%" := by
  have h := createCommand_zero_args_identity
    { command := "df -h %d 100%", args := [] } { args := [] }
    rfl rfl (by decide)
  rw [h]

/-- C10: for every input string and every behaviour of the external process
invocation, the "empty command" branch of `execCommand` is unreachable:
splitting any string on a single space yields at least one token, so
`execCommand` always reaches the external invocation, whose outcome alone
determines the result. -/
theorem execCommand_empty_branch_unreachable
    (combinedOutput : String → List String → String × Option String)
    (command : String) :
    0 < (goSplitSpace command).length ∧
    execCommand combinedOutput command =
      (match (combinedOutput ((goSplitSpace command).headD "")
          (goSplitSpace command).tail).2 with
       | some err => .error err
       | none => .ok (combinedOutput ((goSplitSpace command).headD "")
          (goSplitSpace command).tail).1) := by
  have hpos := goSplitSpace_length_pos command
  refine ⟨hpos, ?_⟩
  have hne : ¬ (goSplitSpace command).length = 0 := Nat.pos_iff_ne_zero.mp hpos
  simp [execCommand, hne]

/-- C4: for every consumed update of kind Command whose command name is not
in the configured command table, the dispatcher attempts exactly one reply
with text `"Command not supported"` addressed by the original message, and
passes nothing to the external executor. -/
theorem pollerStep_unknown_command (commands : String → Option Command)
    (run : String → Except String String) (update : Message)
    (htype : update.type = MessageType.Command)
    (hlookup : commands update.command = none) :
    pollerStep commands run update
      = (some ("Command not supported", update), []) := by
  simp [pollerStep, htype, hlookup]

/-- C4 (witness): an empty command table and the update
`{kind := Command, command := "missing"}` produce the fixed reply and no
executor call. -/
theorem pollerStep_unknown_command_witness :
    pollerStep (fun _ => none) (fun s => .ok s)
        { type := .Command, command := "missing" }
      = (some ("Command not supported", { type := .Command, command := "missing" }), []) := by
  exact pollerStep_unknown_command (fun _ => none) (fun s => .ok s)
    { type := .Command, command := "missing" } rfl rfl

/-- C5: a successfully decoded `receive` notification whose envelope sender
number is not in the configured allow-list delivers zero messages on the
output stream — `parseMessage`'s error is only logged, the frame is dropped,
and the receive loop continues with the subsequent frames exactly as if the
frame had not arrived. -/
theorem receiver_drops_disallowed_source (sources : List String)
    (msg : RpcMessage) (p : RawParams) (recv : ReceiveParams)
    (ds : List DecodeOutcome)
    (herr : msg.rpcErr = none) (hm : msg.method = "receive")
    (hp : msg.params = some p) (hdec : p.decoded = .ok recv)
    (hsrc : recv.envelope.sourceNumber ∉ sources) :
    receiverStep sources (.ok msg) = (.continueLoop, []) ∧
    receiverRun sources (.ok msg :: ds) = receiverRun sources ds := by
  have hstep : receiverStep sources (.ok msg) = (.continueLoop, []) := by
    simp [receiverStep, handleFrame, herr, hm, hp, parseMessage, hdec, hsrc]
  refine ⟨hstep, ?_⟩
  simp [receiverRun, hstep]

/-- The allow-list used by the repository's own signal tests. -/
def testSources : List String := ["+15551234567"]

/-- The decoded notification payload of the `TestParseMessage_InvalidSource`
test: sender `"+15550000000"`, which is not on `testSources`. -/
def disallowedRecv : ReceiveParams :=
  { envelope := { sourceNumber := "+15550000000" } }

/-- The raw params of the disallowed-sender notification with its decode
outcome. -/
def disallowedParams : RawParams :=
  { raw := "rawjson", decoded := .ok disallowedRecv }

/-- The decoded frame carrying the disallowed-sender notification. -/
def disallowedMsg : RpcMessage :=
  { method := "receive", params := some disallowedParams }

/-- C5 (witness): the repository test's disallowed sender `"+15550000000"`
against the allow-list `["+15551234567"]` yields an empty delivered stream
and no loop exit. -/
theorem receiver_drops_disallowed_source_witness :
    receiverRun testSources [.ok disallowedMsg] = ([], false) := by
  have h := receiver_drops_disallowed_source testSources disallowedMsg
    disallowedParams disallowedRecv [] rfl rfl rfl rfl (by decide)
  rw [h.2]; rfl

/-- The successful branch of `parseMessage` in closed form: for a decodable
payload from an allowed sender, the produced message is determined by the
sigil test on the first token. -/
theorem parseMessage_ok (p : RawParams) (sources : List String)
    (recv : ReceiveParams)
    (hdec : p.decoded = .ok recv)
    (hsrc : recv.envelope.sourceNumber ∈ sources) :
    parseMessage p sources
      = .ok { type := if hasSlashPrefix ((sentTokens recv).headD "")
                      then MessageType.Command else MessageType.Chat,
              raw := p.raw,
              command := if hasSlashPrefix ((sentTokens recv).headD "")
                         then trimLeadingSlash ((sentTokens recv).headD "")
                         else (sentTokens recv).headD "",
              source := recv.envelope.sourceNumber,
              args := (sentTokens recv).tail } := by
  unfold parseMessage sentTokens
  rw [hdec]
  dsimp only
  rw [if_neg (not_not_intro hsrc)]

/-- C6: for a notification from an allowed sender, when the first
space-delimited token of the sent text begins with `/`, `parseMessage`
emits a Command message whose command is that token with the leading `/`
removed and whose args are the remaining tokens; when the first token does
not begin with `/`, it emits a Chat message that preserves the full raw
payload (which carries the message text) unchanged, with the same remaining
tokens as args. -/
theorem parseMessage_classifies (p : RawParams) (sources : List String)
    (recv : ReceiveParams)
    (hdec : p.decoded = .ok recv)
    (hsrc : recv.envelope.sourceNumber ∈ sources) :
    (∀ cs : List Char, ((sentTokens recv).headD "").data = '/' :: cs →
      parseMessage p sources
        = .ok { type := .Command,
                raw := p.raw,
                command := String.mk cs,
                source := recv.envelope.sourceNumber,
                args := (sentTokens recv).tail }) ∧
    (hasSlashPrefix ((sentTokens recv).headD "") = false →
      parseMessage p sources
        = .ok { type := .Chat,
                raw := p.raw,
                command := (sentTokens recv).headD "",
                source := recv.envelope.sourceNumber,
                args := (sentTokens recv).tail }) := by
  have hok := parseMessage_ok p sources recv hdec hsrc
  constructor
  · intro cs hcs
    have hpre : hasSlashPrefix ((sentTokens recv).headD "") = true := by
      unfold hasSlashPrefix
      rw [hcs]
      rfl
    have htrim : trimLeadingSlash ((sentTokens recv).headD "") = String.mk cs := by
      unfold trimLeadingSlash
      rw [hcs]
      rfl
    rw [hok, hpre, htrim]
    simp
  · intro h
    rw [hok, h]
    simp

/-- The decoded notification payload of the
`TestParseMessage_ValidSourceCommand` test: allowed sender, text
`"/greet Alice Bob"`. -/
def greetRecv : ReceiveParams :=
  { envelope := { sourceNumber := "+15551234567",
                  syncMessage := { sentMessage := { message := "/greet Alice Bob" } } } }

/-- The raw params of the `"/greet Alice Bob"` notification with its decode
outcome. -/
def greetParams : RawParams :=
  { raw := "rawpayload", decoded := .ok greetRecv }

/-- C6 (witness): the repository test's message `"/greet Alice Bob"` from the
allowed sender parses to the Command `greet` with args `["Alice", "Bob"]`
and the raw payload preserved. -/
theorem parseMessage_classifies_witness :
    parseMessage greetParams testSources
      = .ok { type := .Command, raw := "rawpayload", command := "greet",
              source := "+15551234567", args := ["Alice", "Bob"] } := by
  have h := (parseMessage_classifies greetParams testSources greetRecv
    rfl (by decide)).1 "greet".data (by decide)
  rw [h]; decide

/-- The decoded notification payload left behind by a failing decode: an
allowed sender with text `"/uptime"`. -/
def residualRecv : ReceiveParams :=
  { envelope := { sourceNumber := "+15551234567",
                  syncMessage := { sentMessage := { message := "/uptime" } } } }

/-- The partially-decoded residual `rpcMessage` of a decode failure: the
decoder populated `Method` and `Params` before failing on a later field. -/
def residualMsg : RpcMessage :=
  { method := "receive",
    params := some { raw := "badframe", decoded := .ok residualRecv } }

/-- C7: at the failing input — a decode failure that is neither EOF nor
connection-closed, where the decoder has already populated the method and
params fields of the freshly-zeroed `rpcMessage` (as `encoding/json` does on
an `UnmarshalTypeError` in a later field) — the receive loop does not skip
to the next frame: it falls through to the normal classification path and
delivers a message for the failed frame; EOF and connection-closed do exit
the loop as the claim states. -/
theorem receiverStep_decode_failure_emits :
    receiverStep testSources .eof = (.exitLoop, []) ∧
    receiverStep testSources .closed = (.exitLoop, []) ∧
    receiverStep testSources (.failure residualMsg)
      = (.continueLoop,
         [{ type := .Command, raw := "badframe", command := "uptime",
            source := "+15551234567", args := [] }]) := by
  refine ⟨rfl, rfl, ?_⟩
  decide

/-- C8: when the configured token is non-empty, every request whose
`Authorization` header (absent reads as `""`) is not exactly
`"Token " ++ token` is answered 401 with a body containing `"unauthorized"`
and never reaches the downstream handler; when the configured token is
empty, every request passes through to the handler unchanged. -/
theorem authMiddleware_gate (token : String) (header : Option String)
    (next : HttpResponse) :
    (token ≠ "" → headerGet header ≠ "Token " ++ token →
      authMiddleware token (headerGet header) next
          = { status := 401, body := "unauthorized\n" } ∧
      ∃ pre post, (authMiddleware token (headerGet header) next).body
          = pre ++ "unauthorized" ++ post) ∧
    (token = "" → authMiddleware token (headerGet header) next = next) := by
  constructor
  · intro h1 h2
    have hgate : authMiddleware token (headerGet header) next
        = { status := 401, body := "unauthorized\n" } := by
      simp [authMiddleware, h1, h2]
    exact ⟨hgate, "", "\n", by rw [hgate]; rfl⟩
  · intro h1
    simp [authMiddleware, h1]

/-- C8 (witness): with the configured token `"secret"`, the spec's
`"Bearer secret"` header is rejected with 401/"unauthorized" and an absent
header likewise, while the empty configured token lets the same request
through. -/
theorem authMiddleware_gate_witness :
    authMiddleware "secret" (headerGet (some "Bearer secret"))
        { status := 200, body := "ok" }
      = { status := 401, body := "unauthorized\n" } ∧
    authMiddleware "secret" (headerGet none) { status := 200, body := "ok" }
      = { status := 401, body := "unauthorized\n" } ∧
    authMiddleware "" (headerGet (some "Bearer secret"))
        { status := 200, body := "ok" }
      = { status := 200, body := "ok" } := by
  refine ⟨?_, ?_, ?_⟩
  · exact ((authMiddleware_gate "secret" (some "Bearer secret")
      { status := 200, body := "ok" }).1 (by decide) (by decide)).1
  · exact ((authMiddleware_gate "secret" none
      { status := 200, body := "ok" }).1 (by decide) (by decide)).1
  · exact (authMiddleware_gate "" (some "Bearer secret")
      { status := 200, body := "ok" }).2 rfl

end RpiBot
